import Mathlib

/-!
Shallow embedding of `pkg/grpc/universalapi/api_workflow.go` (dapr):
the workflow-API adapter layer.  Requests, responses, error values and the
seven Beta1 dispatchers (plus their Alpha1 aliases) are translated directly
from the Go source.  External effects that do not touch values
(`a.Logger.Debug`, `a.WaitForActorsReady`) are omitted; the engine component
and the component store are modelled as function-valued fields, as the Go
code consumes them only through calls.
-/

/-- Sentinel-style errors produced by the workflow engine
(`github.com/microsoft/durabletask-go/api`).  `instanceNotFound` models the
distinguished `api.ErrInstanceNotFound` sentinel that the Go code tests with
`errors.Is`; `other` models every other engine error (an opaque code, since
the adapter never inspects engine errors beyond the sentinel test). -/
inductive EngineError where
  | instanceNotFound
  | other (code : Nat)
  deriving DecidableEq

/-- Models `errors.Is(err, api.ErrInstanceNotFound)` on this error model. -/
def EngineError.isInstanceNotFound : EngineError → Bool
  | .instanceNotFound => true
  | .other _ => false

/-- Adapter-level error values from `pkg/messages` as constructed in
`api_workflow.go`.  Each constructor carries exactly the `WithFormat`
arguments the source passes, split into the identifier/name strings and the
wrapped engine error. -/
inductive WFError where
  | ErrMissingOrEmptyInstance
  | ErrInstanceIDTooLong (limit : Nat)
  | ErrInvalidInstanceID (id : String)
  | ErrWorkflowNameMissing
  | ErrMissingWorkflowEventName
  | ErrNoOrMissingWorkflowComponent
  | ErrWorkflowComponentDoesNotExist (name : String)
  | ErrWorkflowInstanceNotFound (id : String) (wrapped : EngineError)
  | ErrWorkflowGetResponse (id : String) (wrapped : EngineError)
  | ErrStartWorkflow (name : String) (wrapped : EngineError)
  | ErrTerminateWorkflow (id : String) (wrapped : EngineError)
  | ErrRaiseEventWorkflow (id : String) (wrapped : EngineError)
  | ErrPauseWorkflow (id : String) (wrapped : EngineError)
  | ErrResumeWorkflow (id : String) (wrapped : EngineError)
  | ErrPurgeWorkflow (id : String) (wrapped : EngineError)
  deriving DecidableEq

/-- The identifier/name strings formatted into the error's detail: exactly
the non-error `WithFormat` string arguments passed at each construction site
in `api_workflow.go` (the numeric limit of `ErrInstanceIDTooLong` is not a
string argument). -/
def WFError.stringDetails : WFError → List String
  | .ErrMissingOrEmptyInstance => []
  | .ErrInstanceIDTooLong _ => []
  | .ErrInvalidInstanceID id => [id]
  | .ErrWorkflowNameMissing => []
  | .ErrMissingWorkflowEventName => []
  | .ErrNoOrMissingWorkflowComponent => []
  | .ErrWorkflowComponentDoesNotExist name => [name]
  | .ErrWorkflowInstanceNotFound id _ => [id]
  | .ErrWorkflowGetResponse id _ => [id]
  | .ErrStartWorkflow name _ => [name]
  | .ErrTerminateWorkflow id _ => [id]
  | .ErrRaiseEventWorkflow id _ => [id]
  | .ErrPauseWorkflow id _ => [id]
  | .ErrResumeWorkflow id _ => [id]
  | .ErrPurgeWorkflow id _ => [id]

/-- The wrapped underlying engine error carried in the detail, when any. -/
def WFError.wrapped : WFError → Option EngineError
  | .ErrWorkflowInstanceNotFound _ e => some e
  | .ErrWorkflowGetResponse _ e => some e
  | .ErrStartWorkflow _ e => some e
  | .ErrTerminateWorkflow _ e => some e
  | .ErrRaiseEventWorkflow _ e => some e
  | .ErrPauseWorkflow _ e => some e
  | .ErrResumeWorkflow _ e => some e
  | .ErrPurgeWorkflow _ e => some e
  | _ => none

/-- True for the per-operation generic engine-failure conditions (the spec's
`OperationFailed` taxonomy kind: `ErrWorkflowGetResponse`, `ErrStartWorkflow`,
`ErrTerminateWorkflow`, `ErrRaiseEventWorkflow`, `ErrPauseWorkflow`,
`ErrResumeWorkflow`, `ErrPurgeWorkflow`). -/
def WFError.isOperationFailed : WFError → Bool
  | .ErrWorkflowGetResponse _ _ => true
  | .ErrStartWorkflow _ _ => true
  | .ErrTerminateWorkflow _ _ => true
  | .ErrRaiseEventWorkflow _ _ => true
  | .ErrPauseWorkflow _ _ => true
  | .ErrResumeWorkflow _ _ => true
  | .ErrPurgeWorkflow _ _ => true
  | _ => false

/-- True exactly for the `InstanceNotFound` taxonomy kind
(`messages.ErrWorkflowInstanceNotFound`). -/
def WFError.isInstanceNotFoundCond : WFError → Bool
  | .ErrWorkflowInstanceNotFound _ _ => true
  | _ => false

/-- Modelled from the spec: Go's `unicode.IsLetter`, the full Unicode
letter class ("Character classification must use full Unicode letter/digit
classes, not ASCII-only").  The Go implementation is a standard-library
range table not present in this repository; it is modelled here over the
Unicode blocks exercised in this development: Basic Latin, the Latin-1
Supplement letters, Greek and Coptic letters, and Cyrillic. -/
def unicode_IsLetter (c : Char) : Bool :=
  let n := c.toNat
  (0x41 ≤ n && n ≤ 0x5A) || (0x61 ≤ n && n ≤ 0x7A) ||
  (0xC0 ≤ n && n ≤ 0xD6) || (0xD8 ≤ n && n ≤ 0xF6) || (0xF8 ≤ n && n ≤ 0xFF) ||
  (0x391 ≤ n && n ≤ 0x3A9 && n ≠ 0x3A2) || (0x3B1 ≤ n && n ≤ 0x3C9) ||
  (0x410 ≤ n && n ≤ 0x44F)

/-- Modelled from the spec: Go's `unicode.IsDigit`, the full Unicode decimal
digit class; modelled here over the blocks exercised in this development:
ASCII digits and the Arabic-Indic digits. -/
def unicode_IsDigit (c : Char) : Bool :=
  let n := c.toNat
  (0x30 ≤ n && n ≤ 0x39) || (0x660 ≤ n && n ≤ 0x669)

/-- The number of bytes of the UTF-8 encoding of one character, as Go
strings store runes (`RFC 3629`). -/
def runeUtf8Size (c : Char) : Nat :=
  if c.toNat ≤ 0x7F then 1
  else if c.toNat ≤ 0x7FF then 2
  else if c.toNat ≤ 0xFFFF then 3
  else 4

/-- Go's `len` on a string: the number of bytes of its UTF-8 encoding
(not the number of runes). -/
def goLen (s : String) : Nat := (s.data.map runeUtf8Size).sum

/-- `validateInstanceID` from `api_workflow.go`: empty-check always; in
create mode a byte-length limit of 64 then a per-rune character check
(`for _, c := range instanceID` iterates runes).  Returns `none` for a valid
id, `some err` otherwise; the first failing rune and any later rune produce
the same error value, so the rune scan is modelled with `List.any`. -/
def validateInstanceID (instanceID : String) (isCreate : Bool) : Option WFError :=
  if instanceID = "" then
    some .ErrMissingOrEmptyInstance
  else if isCreate then
    if goLen instanceID > 64 then
      some (.ErrInstanceIDTooLong 64)
    else if instanceID.data.any
        (fun c => !unicode_IsLetter c && c != '_' && c != '-' && !unicode_IsDigit c) then
      some (.ErrInvalidInstanceID instanceID)
    else
      none
  else
    none

/-- Engine-side request/response value objects (`components-contrib/workflows`),
with exactly the fields `api_workflow.go` reads or writes.  Byte payloads are
modelled as `List Nat`, string maps as association lists, timestamps as `Nat`. -/
structure WFGetRequest where
  instanceID : String
  deriving DecidableEq

structure WorkflowState where
  instanceID : String
  workflowName : String
  createdAt : Nat
  lastUpdatedAt : Nat
  runtimeStatus : String
  properties : List (String × String)
  deriving DecidableEq

structure WFGetResponse where
  workflow : WorkflowState
  deriving DecidableEq

structure WFStartRequest where
  instanceID : String
  options : List (String × String)
  workflowName : String
  workflowInput : List Nat
  deriving DecidableEq

structure WFStartResponse where
  instanceID : String
  deriving DecidableEq

structure WFTerminateRequest where
  instanceID : String
  deriving DecidableEq

structure WFRaiseEventRequest where
  instanceID : String
  eventName : String
  eventData : List Nat
  deriving DecidableEq

structure WFPauseRequest where
  instanceID : String
  deriving DecidableEq

structure WFResumeRequest where
  instanceID : String
  deriving DecidableEq

structure WFPurgeRequest where
  instanceID : String
  deriving DecidableEq

/-- The `workflows.Workflow` engine-component capability: the seven methods
the adapter invokes.  Methods returning only `error` in Go are modelled as
`Option EngineError` (`none` = success). -/
structure Workflow where
  get : WFGetRequest → Except EngineError WFGetResponse
  start : WFStartRequest → Except EngineError WFStartResponse
  terminate : WFTerminateRequest → Option EngineError
  raiseEvent : WFRaiseEventRequest → Option EngineError
  pause : WFPauseRequest → Option EngineError
  resume : WFResumeRequest → Option EngineError
  purge : WFPurgeRequest → Option EngineError

/-- The adapter state (`UniversalAPI`): only the component store is consulted
by this file's code; `compStore` models `a.CompStore.GetWorkflow`
(lookup by name returning the component and a found flag, here `Option`). -/
structure UniversalAPI where
  compStore : String → Option Workflow

/-- `getWorkflowComponent` from `api_workflow.go`. -/
def UniversalAPI.getWorkflowComponent (a : UniversalAPI) (componentName : String) :
    Except WFError Workflow :=
  if componentName = "" then
    .error .ErrNoOrMissingWorkflowComponent
  else
    match a.compStore componentName with
    | none => .error (.ErrWorkflowComponentDoesNotExist componentName)
    | some workflowComponent => .ok workflowComponent

/-- Caller-facing request/response types (`runtimev1pb`), with the fields
`api_workflow.go` uses.  `timestamppb.New` is a pure representation change
and is modelled as the identity on `Nat` timestamps; an absent (nil) proto
timestamp is `none`. -/
structure GetWorkflowRequest where
  instanceId : String
  workflowComponent : String
  deriving DecidableEq

structure GetWorkflowResponse where
  instanceId : String
  workflowName : String
  createdAt : Option Nat
  lastUpdatedAt : Option Nat
  runtimeStatus : String
  properties : List (String × String)
  deriving DecidableEq

/-- The zero value `&runtimev1pb.GetWorkflowResponse{}`. -/
def GetWorkflowResponse.zero : GetWorkflowResponse :=
  { instanceId := "", workflowName := "", createdAt := none,
    lastUpdatedAt := none, runtimeStatus := "", properties := [] }

structure StartWorkflowRequest where
  instanceId : String
  workflowComponent : String
  workflowName : String
  input : List Nat
  options : List (String × String)
  deriving DecidableEq

structure StartWorkflowResponse where
  instanceId : String
  deriving DecidableEq

/-- The zero value `&runtimev1pb.StartWorkflowResponse{}`. -/
def StartWorkflowResponse.zero : StartWorkflowResponse := { instanceId := "" }

structure TerminateWorkflowRequest where
  instanceId : String
  workflowComponent : String
  deriving DecidableEq

structure RaiseEventWorkflowRequest where
  instanceId : String
  workflowComponent : String
  eventName : String
  eventData : List Nat
  deriving DecidableEq

structure PauseWorkflowRequest where
  instanceId : String
  workflowComponent : String
  deriving DecidableEq

structure ResumeWorkflowRequest where
  instanceId : String
  workflowComponent : String
  deriving DecidableEq

structure PurgeWorkflowRequest where
  instanceId : String
  workflowComponent : String
  deriving DecidableEq

/-- `emptypb.Empty`: the empty acknowledgement payload. -/
structure EmptyPb where
  deriving DecidableEq

/-- `GetWorkflowBeta1` from `api_workflow.go`.  Go's `(resp, err)` pair is
modelled as a product with `Option WFError`; `a.WaitForActorsReady(ctx)` is
an external blocking wait with no value effect and is omitted. -/
def UniversalAPI.GetWorkflowBeta1 (a : UniversalAPI) (inp : GetWorkflowRequest) :
    GetWorkflowResponse × Option WFError :=
  match validateInstanceID inp.instanceId false with
  | some err => (GetWorkflowResponse.zero, some err)
  | none =>
    match a.getWorkflowComponent inp.workflowComponent with
    | .error err => (GetWorkflowResponse.zero, some err)
    | .ok workflowComponent =>
      match workflowComponent.get { instanceID := inp.instanceId } with
      | .error e =>
        if e.isInstanceNotFound then
          (GetWorkflowResponse.zero, some (.ErrWorkflowInstanceNotFound inp.instanceId e))
        else
          (GetWorkflowResponse.zero, some (.ErrWorkflowGetResponse inp.instanceId e))
      | .ok response =>
        ({ instanceId := response.workflow.instanceID,
           workflowName := response.workflow.workflowName,
           createdAt := some response.workflow.createdAt,
           lastUpdatedAt := some response.workflow.lastUpdatedAt,
           runtimeStatus := response.workflow.runtimeStatus,
           properties := response.workflow.properties }, none)

/-- `StartWorkflowBeta1` from `api_workflow.go`.  Note the engine-failure
error is formatted with `in.WorkflowName`, not the instance id. -/
def UniversalAPI.StartWorkflowBeta1 (a : UniversalAPI) (inp : StartWorkflowRequest) :
    StartWorkflowResponse × Option WFError :=
  match validateInstanceID inp.instanceId true with
  | some err => (StartWorkflowResponse.zero, some err)
  | none =>
    if inp.workflowName = "" then
      (StartWorkflowResponse.zero, some .ErrWorkflowNameMissing)
    else
      match a.getWorkflowComponent inp.workflowComponent with
      | .error err => (StartWorkflowResponse.zero, some err)
      | .ok workflowComponent =>
        match workflowComponent.start
            { instanceID := inp.instanceId, options := inp.options,
              workflowName := inp.workflowName, workflowInput := inp.input } with
        | .error e =>
          (StartWorkflowResponse.zero, some (.ErrStartWorkflow inp.workflowName e))
        | .ok resp => ({ instanceId := resp.instanceID }, none)

/-- `TerminateWorkflowBeta1` from `api_workflow.go`. -/
def UniversalAPI.TerminateWorkflowBeta1 (a : UniversalAPI) (inp : TerminateWorkflowRequest) :
    EmptyPb × Option WFError :=
  match validateInstanceID inp.instanceId false with
  | some err => ({}, some err)
  | none =>
    match a.getWorkflowComponent inp.workflowComponent with
    | .error err => ({}, some err)
    | .ok workflowComponent =>
      match workflowComponent.terminate { instanceID := inp.instanceId } with
      | some e =>
        if e.isInstanceNotFound then
          ({}, some (.ErrWorkflowInstanceNotFound inp.instanceId e))
        else
          ({}, some (.ErrTerminateWorkflow inp.instanceId e))
      | none => ({}, none)

/-- `RaiseEventWorkflowBeta1` from `api_workflow.go`. -/
def UniversalAPI.RaiseEventWorkflowBeta1 (a : UniversalAPI) (inp : RaiseEventWorkflowRequest) :
    EmptyPb × Option WFError :=
  match validateInstanceID inp.instanceId false with
  | some err => ({}, some err)
  | none =>
    if inp.eventName = "" then
      ({}, some .ErrMissingWorkflowEventName)
    else
      match a.getWorkflowComponent inp.workflowComponent with
      | .error err => ({}, some err)
      | .ok workflowComponent =>
        match workflowComponent.raiseEvent
            { instanceID := inp.instanceId, eventName := inp.eventName,
              eventData := inp.eventData } with
        | some e => ({}, some (.ErrRaiseEventWorkflow inp.instanceId e))
        | none => ({}, none)

/-- `PauseWorkflowBeta1` from `api_workflow.go`. -/
def UniversalAPI.PauseWorkflowBeta1 (a : UniversalAPI) (inp : PauseWorkflowRequest) :
    EmptyPb × Option WFError :=
  match validateInstanceID inp.instanceId false with
  | some err => ({}, some err)
  | none =>
    match a.getWorkflowComponent inp.workflowComponent with
    | .error err => ({}, some err)
    | .ok workflowComponent =>
      match workflowComponent.pause { instanceID := inp.instanceId } with
      | some e => ({}, some (.ErrPauseWorkflow inp.instanceId e))
      | none => ({}, none)

/-- `ResumeWorkflowBeta1` from `api_workflow.go`. -/
def UniversalAPI.ResumeWorkflowBeta1 (a : UniversalAPI) (inp : ResumeWorkflowRequest) :
    EmptyPb × Option WFError :=
  match validateInstanceID inp.instanceId false with
  | some err => ({}, some err)
  | none =>
    match a.getWorkflowComponent inp.workflowComponent with
    | .error err => ({}, some err)
    | .ok workflowComponent =>
      match workflowComponent.resume { instanceID := inp.instanceId } with
      | some e => ({}, some (.ErrResumeWorkflow inp.instanceId e))
      | none => ({}, none)

/-- `PurgeWorkflowBeta1` from `api_workflow.go`. -/
def UniversalAPI.PurgeWorkflowBeta1 (a : UniversalAPI) (inp : PurgeWorkflowRequest) :
    EmptyPb × Option WFError :=
  match validateInstanceID inp.instanceId false with
  | some err => ({}, some err)
  | none =>
    match a.getWorkflowComponent inp.workflowComponent with
    | .error err => ({}, some err)
    | .ok workflowComponent =>
      match workflowComponent.purge { instanceID := inp.instanceId } with
      | some e =>
        if e.isInstanceNotFound then
          ({}, some (.ErrWorkflowInstanceNotFound inp.instanceId e))
        else
          ({}, some (.ErrPurgeWorkflow inp.instanceId e))
      | none => ({}, none)

/-- `GetWorkflowAlpha1`: pure delegation to the Beta1 handler. -/
def UniversalAPI.GetWorkflowAlpha1 (a : UniversalAPI) (inp : GetWorkflowRequest) :
    GetWorkflowResponse × Option WFError :=
  a.GetWorkflowBeta1 inp

/-- `StartWorkflowAlpha1`: pure delegation to the Beta1 handler. -/
def UniversalAPI.StartWorkflowAlpha1 (a : UniversalAPI) (inp : StartWorkflowRequest) :
    StartWorkflowResponse × Option WFError :=
  a.StartWorkflowBeta1 inp

/-- `TerminateWorkflowAlpha1`: pure delegation to the Beta1 handler. -/
def UniversalAPI.TerminateWorkflowAlpha1 (a : UniversalAPI) (inp : TerminateWorkflowRequest) :
    EmptyPb × Option WFError :=
  a.TerminateWorkflowBeta1 inp

/-- `RaiseEventWorkflowAlpha1`: pure delegation to the Beta1 handler. -/
def UniversalAPI.RaiseEventWorkflowAlpha1 (a : UniversalAPI) (inp : RaiseEventWorkflowRequest) :
    EmptyPb × Option WFError :=
  a.RaiseEventWorkflowBeta1 inp

/-- `PauseWorkflowAlpha1`: pure delegation to the Beta1 handler. -/
def UniversalAPI.PauseWorkflowAlpha1 (a : UniversalAPI) (inp : PauseWorkflowRequest) :
    EmptyPb × Option WFError :=
  a.PauseWorkflowBeta1 inp

/-- `ResumeWorkflowAlpha1`: pure delegation to the Beta1 handler. -/
def UniversalAPI.ResumeWorkflowAlpha1 (a : UniversalAPI) (inp : ResumeWorkflowRequest) :
    EmptyPb × Option WFError :=
  a.ResumeWorkflowBeta1 inp

/-- `PurgeWorkflowAlpha1`: pure delegation to the Beta1 handler. -/
def UniversalAPI.PurgeWorkflowAlpha1 (a : UniversalAPI) (inp : PurgeWorkflowRequest) :
    EmptyPb × Option WFError :=
  a.PurgeWorkflowBeta1 inp

/-- The allowed create-mode character set: the negation of the per-rune
rejection test in `validateInstanceID`. -/
def goAllowedChar (c : Char) : Bool :=
  unicode_IsLetter c || c == '_' || c == '-' || unicode_IsDigit c

lemma goAllowedChar_reject (c : Char) (h : goAllowedChar c = true) :
    (!unicode_IsLetter c && c != '_' && c != '-' && !unicode_IsDigit c) = false := by
  unfold goAllowedChar at h
  cases hl : unicode_IsLetter c <;> cases hd : unicode_IsDigit c <;>
    cases hu : c == '_' <;> cases hm : c == '-' <;>
      simp_all [bne]

lemma one_le_runeUtf8Size (c : Char) : 1 ≤ runeUtf8Size c := by
  unfold runeUtf8Size
  split <;> [skip; split] <;> [omega; skip; split] <;> omega

lemma data_length_le_goLen (s : String) : s.data.length ≤ goLen s := by
  unfold goLen
  induction s.data with
  | nil => simp
  | cons c cs ih =>
    have := one_le_runeUtf8Size c
    simp only [List.map_cons, List.sum_cons, List.length_cons]
    omega

lemma ne_empty_of_data_length_pos (s : String) (h : 0 < s.data.length) : s ≠ "" := by
  intro hs
  subst hs
  simp at h

/-- A 33-character instance id, every character the Unicode letter U+00E9,
whose UTF-8 encoding is 66 bytes: `len` in Go counts bytes. -/
def c1BadId : String := String.mk (List.replicate 33 'é')

/-- C1 (counterexample): `c1BadId` is non-empty, has at most 64 Unicode
characters, each a Unicode letter, yet create-mode validation rejects it
with `ErrInstanceIDTooLong`, because `len` in Go measures UTF-8 bytes and
`c1BadId` occupies 66 bytes. -/
theorem C1_counterexample :
    c1BadId ≠ "" ∧ c1BadId.data.length ≤ 64 ∧
      (∀ c ∈ c1BadId.data, unicode_IsLetter c = true) ∧
      validateInstanceID c1BadId true = some (.ErrInstanceIDTooLong 64) := by
  decide

/-- C1 (amended): for every non-empty instance id whose UTF-8 encoding is at
most 64 bytes and whose every character is a Unicode letter, Unicode digit,
`-`, or `_`, create-mode validation succeeds, returning no error. -/
theorem C1_create_validation_ok (id : String) (h1 : id ≠ "")
    (h2 : goLen id ≤ 64) (h3 : ∀ c ∈ id.data, goAllowedChar c = true) :
    validateInstanceID id true = none := by
  unfold validateInstanceID
  rw [if_neg h1, if_pos rfl, if_neg (by omega)]
  have hany : (id.data.any
      (fun c => !unicode_IsLetter c && c != '_' && c != '-' && !unicode_IsDigit c)) = false := by
    rw [List.any_eq_false]
    intro c hc
    simp only [Bool.not_eq_true]
    exact goAllowedChar_reject c (h3 c hc)
  rw [if_neg (by simp [hany])]

/-- C1 (witness): the spec's own example id passes create-mode validation. -/
theorem C1_witness : validateInstanceID "wf-123_A" true = none :=
  C1_create_validation_ok "wf-123_A" (by decide) (by decide) (by decide)

/-- C5: an instance id with more than 64 Unicode characters, at least one of
which is outside the allowed set, fails create-mode validation with
`ErrInstanceIDTooLong` (never `ErrInvalidInstanceID`): the length check runs
before the character check. -/
theorem C5_length_check_wins (id : String) (h1 : 64 < id.data.length)
    (_h2 : ∃ c ∈ id.data, goAllowedChar c = false) :
    validateInstanceID id true = some (.ErrInstanceIDTooLong 64) := by
  have hne : id ≠ "" := ne_empty_of_data_length_pos id (by omega)
  have hlen : 64 < goLen id := lt_of_lt_of_le h1 (data_length_le_goLen id)
  unfold validateInstanceID
  rw [if_neg hne, if_pos rfl, if_pos hlen]

/-- C5 (witness): 64 `a`s followed by `#` (65 characters, one invalid)
reports the length error. -/
theorem C5_witness :
    validateInstanceID (String.mk (List.replicate 64 'a' ++ ['#'])) true =
      some (.ErrInstanceIDTooLong 64) :=
  C5_length_check_wins _ (by decide) ⟨'#', by decide⟩

/-- C8: non-create validation fails with `ErrMissingOrEmptyInstance` exactly
on the empty id, accepts every non-empty id (irrespective of length or
characters), and create-mode validation also rejects the empty id with
`ErrMissingOrEmptyInstance`. -/
theorem C8_noncreate_validation (id : String) :
    (validateInstanceID id false = some .ErrMissingOrEmptyInstance ↔ id = "") ∧
    (id ≠ "" → validateInstanceID id false = none) ∧
    validateInstanceID "" true = some .ErrMissingOrEmptyInstance := by
  refine ⟨?_, ?_, by decide⟩
  · constructor
    · intro h
      by_contra hne
      rw [validateInstanceID, if_neg hne] at h
      simp at h
    · intro h
      subst h
      decide
  · intro hne
    rw [validateInstanceID, if_neg hne]
    simp

/-- C8 (witness): a 100-character id passes non-create validation. -/
theorem C8_witness :
    validateInstanceID (String.mk (List.replicate 100 'a')) false = none :=
  (C8_noncreate_validation _).2.1 (by decide)

/-- An engine component every one of whose seven methods fails with the
fixed engine error `e`; used to exercise the dispatchers' failure paths. -/
def constComponent (e : EngineError) : Workflow :=
  { get := fun _ => .error e, start := fun _ => .error e,
    terminate := fun _ => some e, raiseEvent := fun _ => some e,
    pause := fun _ => some e, resume := fun _ => some e, purge := fun _ => some e }

/-- An engine component whose methods all succeed, with a fixed workflow
state served by `get` and the request's id echoed by `start`. -/
def okComponent (st : WorkflowState) : Workflow :=
  { get := fun _ => .ok { workflow := st },
    start := fun req => .ok { instanceID := req.instanceID },
    terminate := fun _ => none, raiseEvent := fun _ => none,
    pause := fun _ => none, resume := fun _ => none, purge := fun _ => none }

/-- An adapter whose component store registers exactly one component. -/
def singletonAPI (name : String) (w : Workflow) : UniversalAPI :=
  ⟨fun n => if n = name then some w else none⟩

/-- C3: each of the seven Alpha1 handlers returns, on every input, exactly
the same response and error as its Beta1 counterpart. -/
theorem C3_alpha_eq_beta :
    (∀ (a : UniversalAPI) (inp : GetWorkflowRequest),
      a.GetWorkflowAlpha1 inp = a.GetWorkflowBeta1 inp) ∧
    (∀ (a : UniversalAPI) (inp : StartWorkflowRequest),
      a.StartWorkflowAlpha1 inp = a.StartWorkflowBeta1 inp) ∧
    (∀ (a : UniversalAPI) (inp : TerminateWorkflowRequest),
      a.TerminateWorkflowAlpha1 inp = a.TerminateWorkflowBeta1 inp) ∧
    (∀ (a : UniversalAPI) (inp : RaiseEventWorkflowRequest),
      a.RaiseEventWorkflowAlpha1 inp = a.RaiseEventWorkflowBeta1 inp) ∧
    (∀ (a : UniversalAPI) (inp : PauseWorkflowRequest),
      a.PauseWorkflowAlpha1 inp = a.PauseWorkflowBeta1 inp) ∧
    (∀ (a : UniversalAPI) (inp : ResumeWorkflowRequest),
      a.ResumeWorkflowAlpha1 inp = a.ResumeWorkflowBeta1 inp) ∧
    (∀ (a : UniversalAPI) (inp : PurgeWorkflowRequest),
      a.PurgeWorkflowAlpha1 inp = a.PurgeWorkflowBeta1 inp) :=
  ⟨fun _ _ => rfl, fun _ _ => rfl, fun _ _ => rfl, fun _ _ => rfl,
   fun _ _ => rfl, fun _ _ => rfl, fun _ _ => rfl⟩

/-- C6: Start with a create-valid instance id and an empty workflow-type
name fails with `ErrWorkflowNameMissing` on every adapter state and every
component name: the result does not depend on the component store, so no
component is resolved and no engine call is made. -/
theorem C6_start_missing_workflow_name (a : UniversalAPI) (inp : StartWorkflowRequest)
    (h1 : validateInstanceID inp.instanceId true = none)
    (h2 : inp.workflowName = "") :
    a.StartWorkflowBeta1 inp = (StartWorkflowResponse.zero, some .ErrWorkflowNameMissing) := by
  simp [UniversalAPI.StartWorkflowBeta1, h1, h2]

/-- C6 (witness): a valid id, empty workflow name, and a registered
component still yield `ErrWorkflowNameMissing`. -/
theorem C6_witness :
    (singletonAPI "redis" (okComponent
        { instanceID := "wf-123_A", workflowName := "order", createdAt := 1,
          lastUpdatedAt := 2, runtimeStatus := "RUNNING", properties := [] })).StartWorkflowBeta1
      { instanceId := "wf-123_A", workflowComponent := "redis", workflowName := "",
        input := [], options := [] } =
      (StartWorkflowResponse.zero, some .ErrWorkflowNameMissing) :=
  C6_start_missing_workflow_name _ _ (by decide) rfl

/-- C10: checks run in a fixed order.  With an empty instance id, Start and
RaiseEvent report `ErrMissingOrEmptyInstance` even when the workflow name or
event name is also empty (id validation precedes the field check); with a
valid id and an empty required field, Start and RaiseEvent report the
missing-field error even when the component name is also empty (field check
precedes component resolution). -/
theorem C10_check_order :
    (∀ (a : UniversalAPI) (inp : StartWorkflowRequest),
      inp.instanceId = "" → inp.workflowName = "" →
      a.StartWorkflowBeta1 inp = (StartWorkflowResponse.zero, some .ErrMissingOrEmptyInstance)) ∧
    (∀ (a : UniversalAPI) (inp : RaiseEventWorkflowRequest),
      inp.instanceId = "" → inp.eventName = "" →
      a.RaiseEventWorkflowBeta1 inp = ({}, some .ErrMissingOrEmptyInstance)) ∧
    (∀ (a : UniversalAPI) (inp : StartWorkflowRequest),
      validateInstanceID inp.instanceId true = none → inp.workflowName = "" →
      inp.workflowComponent = "" →
      a.StartWorkflowBeta1 inp = (StartWorkflowResponse.zero, some .ErrWorkflowNameMissing)) ∧
    (∀ (a : UniversalAPI) (inp : RaiseEventWorkflowRequest),
      inp.instanceId ≠ "" → inp.eventName = "" → inp.workflowComponent = "" →
      a.RaiseEventWorkflowBeta1 inp = ({}, some .ErrMissingWorkflowEventName)) := by
  refine ⟨?_, ?_, ?_, ?_⟩
  · intro a inp h1 h2
    simp [UniversalAPI.StartWorkflowBeta1, validateInstanceID, h1]
  · intro a inp h1 h2
    simp [UniversalAPI.RaiseEventWorkflowBeta1, validateInstanceID, h1]
  · intro a inp h1 h2 h3
    simp [UniversalAPI.StartWorkflowBeta1, h1, h2]
  · intro a inp h1 h2 h3
    simp [UniversalAPI.RaiseEventWorkflowBeta1, validateInstanceID, h1, h2]

/-- C10 (witness): the four orderings on concrete inputs. -/
theorem C10_witness :
    (singletonAPI "c" (constComponent .instanceNotFound)).StartWorkflowBeta1
        { instanceId := "", workflowComponent := "c", workflowName := "",
          input := [], options := [] } =
      (StartWorkflowResponse.zero, some .ErrMissingOrEmptyInstance) ∧
    (singletonAPI "c" (constComponent .instanceNotFound)).RaiseEventWorkflowBeta1
        { instanceId := "", workflowComponent := "c", eventName := "", eventData := [] } =
      ({}, some .ErrMissingOrEmptyInstance) ∧
    (singletonAPI "c" (constComponent .instanceNotFound)).StartWorkflowBeta1
        { instanceId := "id1", workflowComponent := "", workflowName := "",
          input := [], options := [] } =
      (StartWorkflowResponse.zero, some .ErrWorkflowNameMissing) ∧
    (singletonAPI "c" (constComponent .instanceNotFound)).RaiseEventWorkflowBeta1
        { instanceId := "id1", workflowComponent := "", eventName := "", eventData := [] } =
      ({}, some .ErrMissingWorkflowEventName) :=
  ⟨C10_check_order.1 _ _ rfl rfl,
   C10_check_order.2.1 _ _ rfl rfl,
   C10_check_order.2.2.1 _ _ (by decide) rfl rfl,
   C10_check_order.2.2.2 _ _ (by decide) rfl rfl⟩

/-- C7: resolving an empty component name fails with
`ErrNoOrMissingWorkflowComponent` and a non-empty unregistered name fails
with `ErrWorkflowComponentDoesNotExist` carrying the name; every dispatcher
then returns the resolver's error unchanged with the zero response.  All
parts hold for every adapter state and every engine component behavior, so
no engine capability method is consulted on these paths. -/
theorem C7_component_resolution :
    (∀ (a : UniversalAPI), a.getWorkflowComponent "" = .error .ErrNoOrMissingWorkflowComponent) ∧
    (∀ (a : UniversalAPI) (name : String), name ≠ "" → a.compStore name = none →
      a.getWorkflowComponent name = .error (.ErrWorkflowComponentDoesNotExist name)) ∧
    (∀ (a : UniversalAPI) (inp : GetWorkflowRequest) (err : WFError),
      inp.instanceId ≠ "" →
      a.getWorkflowComponent inp.workflowComponent = .error err →
      a.GetWorkflowBeta1 inp = (GetWorkflowResponse.zero, some err)) ∧
    (∀ (a : UniversalAPI) (inp : StartWorkflowRequest) (err : WFError),
      validateInstanceID inp.instanceId true = none → inp.workflowName ≠ "" →
      a.getWorkflowComponent inp.workflowComponent = .error err →
      a.StartWorkflowBeta1 inp = (StartWorkflowResponse.zero, some err)) ∧
    (∀ (a : UniversalAPI) (inp : TerminateWorkflowRequest) (err : WFError),
      inp.instanceId ≠ "" →
      a.getWorkflowComponent inp.workflowComponent = .error err →
      a.TerminateWorkflowBeta1 inp = ({}, some err)) ∧
    (∀ (a : UniversalAPI) (inp : RaiseEventWorkflowRequest) (err : WFError),
      inp.instanceId ≠ "" → inp.eventName ≠ "" →
      a.getWorkflowComponent inp.workflowComponent = .error err →
      a.RaiseEventWorkflowBeta1 inp = ({}, some err)) ∧
    (∀ (a : UniversalAPI) (inp : PauseWorkflowRequest) (err : WFError),
      inp.instanceId ≠ "" →
      a.getWorkflowComponent inp.workflowComponent = .error err →
      a.PauseWorkflowBeta1 inp = ({}, some err)) ∧
    (∀ (a : UniversalAPI) (inp : ResumeWorkflowRequest) (err : WFError),
      inp.instanceId ≠ "" →
      a.getWorkflowComponent inp.workflowComponent = .error err →
      a.ResumeWorkflowBeta1 inp = ({}, some err)) ∧
    (∀ (a : UniversalAPI) (inp : PurgeWorkflowRequest) (err : WFError),
      inp.instanceId ≠ "" →
      a.getWorkflowComponent inp.workflowComponent = .error err →
      a.PurgeWorkflowBeta1 inp = ({}, some err)) := by
  refine ⟨?_, ?_, ?_, ?_, ?_, ?_, ?_, ?_, ?_⟩
  · intro a
    simp [UniversalAPI.getWorkflowComponent]
  · intro a name h1 h2
    simp [UniversalAPI.getWorkflowComponent, h1, h2]
  · intro a inp err h1 h2
    simp [UniversalAPI.GetWorkflowBeta1, validateInstanceID, h1, h2]
  · intro a inp err h1 h2 h3
    simp [UniversalAPI.StartWorkflowBeta1, h1, h2, h3]
  · intro a inp err h1 h2
    simp [UniversalAPI.TerminateWorkflowBeta1, validateInstanceID, h1, h2]
  · intro a inp err h1 h2 h3
    simp [UniversalAPI.RaiseEventWorkflowBeta1, validateInstanceID, h1, h2, h3]
  · intro a inp err h1 h2
    simp [UniversalAPI.PauseWorkflowBeta1, validateInstanceID, h1, h2]
  · intro a inp err h1 h2
    simp [UniversalAPI.ResumeWorkflowBeta1, validateInstanceID, h1, h2]
  · intro a inp err h1 h2
    simp [UniversalAPI.PurgeWorkflowBeta1, validateInstanceID, h1, h2]

/-- C7 (witness): all nine parts instantiated on concrete inputs — an empty
component name and a non-empty name absent from a one-entry store. -/
theorem C7_witness :
    (singletonAPI "c" (constComponent .instanceNotFound)).getWorkflowComponent "" =
      .error .ErrNoOrMissingWorkflowComponent ∧
    (singletonAPI "c" (constComponent .instanceNotFound)).getWorkflowComponent "ghost" =
      .error (.ErrWorkflowComponentDoesNotExist "ghost") ∧
    (singletonAPI "c" (constComponent .instanceNotFound)).GetWorkflowBeta1
        { instanceId := "id1", workflowComponent := "" } =
      (GetWorkflowResponse.zero, some .ErrNoOrMissingWorkflowComponent) ∧
    (singletonAPI "c" (constComponent .instanceNotFound)).StartWorkflowBeta1
        { instanceId := "id1", workflowComponent := "ghost", workflowName := "order",
          input := [], options := [] } =
      (StartWorkflowResponse.zero, some (.ErrWorkflowComponentDoesNotExist "ghost")) ∧
    (singletonAPI "c" (constComponent .instanceNotFound)).TerminateWorkflowBeta1
        { instanceId := "id1", workflowComponent := "" } =
      ({}, some .ErrNoOrMissingWorkflowComponent) ∧
    (singletonAPI "c" (constComponent .instanceNotFound)).RaiseEventWorkflowBeta1
        { instanceId := "id1", workflowComponent := "ghost", eventName := "ev",
          eventData := [] } =
      ({}, some (.ErrWorkflowComponentDoesNotExist "ghost")) ∧
    (singletonAPI "c" (constComponent .instanceNotFound)).PauseWorkflowBeta1
        { instanceId := "id1", workflowComponent := "" } =
      ({}, some .ErrNoOrMissingWorkflowComponent) ∧
    (singletonAPI "c" (constComponent .instanceNotFound)).ResumeWorkflowBeta1
        { instanceId := "id1", workflowComponent := "ghost" } =
      ({}, some (.ErrWorkflowComponentDoesNotExist "ghost")) ∧
    (singletonAPI "c" (constComponent .instanceNotFound)).PurgeWorkflowBeta1
        { instanceId := "id1", workflowComponent := "" } =
      ({}, some .ErrNoOrMissingWorkflowComponent) :=
  ⟨C7_component_resolution.1 _,
   C7_component_resolution.2.1 _ "ghost" (by decide) (by simp [singletonAPI]),
   C7_component_resolution.2.2.1 _ _ _ (by decide) (by simp [UniversalAPI.getWorkflowComponent]),
   C7_component_resolution.2.2.2.1 _ _ _ (by decide) (by decide)
     (by simp [UniversalAPI.getWorkflowComponent, singletonAPI]),
   C7_component_resolution.2.2.2.2.1 _ _ _ (by decide)
     (by simp [UniversalAPI.getWorkflowComponent]),
   C7_component_resolution.2.2.2.2.2.1 _ _ _ (by decide) (by decide)
     (by simp [UniversalAPI.getWorkflowComponent, singletonAPI]),
   C7_component_resolution.2.2.2.2.2.2.1 _ _ _ (by decide)
     (by simp [UniversalAPI.getWorkflowComponent]),
   C7_component_resolution.2.2.2.2.2.2.2.1 _ _ _ (by decide)
     (by simp [UniversalAPI.getWorkflowComponent, singletonAPI]),
   C7_component_resolution.2.2.2.2.2.2.2.2 _ _ _ (by decide)
     (by simp [UniversalAPI.getWorkflowComponent])⟩

/-- C2 (counterexample): with instance id `inst-1` and workflow name `wf-1`,
an engine failure in Start yields `ErrStartWorkflow` formatted with the
workflow name; the instance id appears nowhere in the error's detail
strings, refuting "detail includes ... the instance id". -/
theorem C2_counterexample :
    ((singletonAPI "c" (constComponent (.other 7))).StartWorkflowBeta1
        { instanceId := "inst-1", workflowComponent := "c", workflowName := "wf-1",
          input := [], options := [] }).2 =
      some (.ErrStartWorkflow "wf-1" (.other 7)) ∧
    "inst-1" ∉ (WFError.ErrStartWorkflow "wf-1" (.other 7)).stringDetails := by
  constructor
  · decide
  · decide

/-- C2 (amended): whenever the engine call of Start fails (with any engine
error, not-found included), the error returned is the Start
`OperationFailed` condition whose detail includes the operation name, the
workflow name (not the instance id), and the wrapped underlying engine
error. -/
theorem C2_start_engine_failure (a : UniversalAPI) (inp : StartWorkflowRequest)
    (wc : Workflow) (e : EngineError)
    (h1 : validateInstanceID inp.instanceId true = none)
    (h2 : inp.workflowName ≠ "")
    (h3 : a.getWorkflowComponent inp.workflowComponent = .ok wc)
    (h4 : wc.start
            { instanceID := inp.instanceId, options := inp.options,
              workflowName := inp.workflowName, workflowInput := inp.input } = .error e) :
    (a.StartWorkflowBeta1 inp).2 = some (.ErrStartWorkflow inp.workflowName e) ∧
    (WFError.ErrStartWorkflow inp.workflowName e).isOperationFailed = true ∧
    (WFError.ErrStartWorkflow inp.workflowName e).stringDetails = [inp.workflowName] ∧
    (WFError.ErrStartWorkflow inp.workflowName e).wrapped = some e := by
  refine ⟨?_, rfl, rfl, rfl⟩
  simp [UniversalAPI.StartWorkflowBeta1, h1, h2, h3, h4]

/-- C2 (witness): the amended statement on a concrete engine failure. -/
theorem C2_witness :
    ((singletonAPI "c" (constComponent (.other 7))).StartWorkflowBeta1
        { instanceId := "id1", workflowComponent := "c", workflowName := "order",
          input := [], options := [] }).2 =
      some (.ErrStartWorkflow "order" (.other 7)) ∧
    (WFError.ErrStartWorkflow "order" (.other 7)).isOperationFailed = true ∧
    (WFError.ErrStartWorkflow "order" (.other 7)).stringDetails = ["order"] ∧
    (WFError.ErrStartWorkflow "order" (.other 7)).wrapped = some (.other 7) :=
  C2_start_engine_failure _ _ (constComponent (.other 7)) _ (by decide) (by decide) rfl rfl

/-- C4: when the engine reports the instance-not-found sentinel, Get,
Terminate and Purge surface `ErrWorkflowInstanceNotFound` carrying the
instance id and the wrapped engine error, while Start, RaiseEvent, Pause and
Resume surface their generic per-operation failure, which is never the
`InstanceNotFound` condition. -/
theorem C4_not_found_capability :
    (∀ (a : UniversalAPI) (inp : GetWorkflowRequest) (wc : Workflow),
      inp.instanceId ≠ "" →
      a.getWorkflowComponent inp.workflowComponent = .ok wc →
      wc.get { instanceID := inp.instanceId } = .error .instanceNotFound →
      (a.GetWorkflowBeta1 inp).2 =
        some (.ErrWorkflowInstanceNotFound inp.instanceId .instanceNotFound)) ∧
    (∀ (a : UniversalAPI) (inp : TerminateWorkflowRequest) (wc : Workflow),
      inp.instanceId ≠ "" →
      a.getWorkflowComponent inp.workflowComponent = .ok wc →
      wc.terminate { instanceID := inp.instanceId } = some .instanceNotFound →
      (a.TerminateWorkflowBeta1 inp).2 =
        some (.ErrWorkflowInstanceNotFound inp.instanceId .instanceNotFound)) ∧
    (∀ (a : UniversalAPI) (inp : PurgeWorkflowRequest) (wc : Workflow),
      inp.instanceId ≠ "" →
      a.getWorkflowComponent inp.workflowComponent = .ok wc →
      wc.purge { instanceID := inp.instanceId } = some .instanceNotFound →
      (a.PurgeWorkflowBeta1 inp).2 =
        some (.ErrWorkflowInstanceNotFound inp.instanceId .instanceNotFound)) ∧
    (∀ (a : UniversalAPI) (inp : StartWorkflowRequest) (wc : Workflow),
      validateInstanceID inp.instanceId true = none → inp.workflowName ≠ "" →
      a.getWorkflowComponent inp.workflowComponent = .ok wc →
      wc.start
          { instanceID := inp.instanceId, options := inp.options,
            workflowName := inp.workflowName, workflowInput := inp.input } =
        .error .instanceNotFound →
      (a.StartWorkflowBeta1 inp).2 =
          some (.ErrStartWorkflow inp.workflowName .instanceNotFound) ∧
        (WFError.ErrStartWorkflow inp.workflowName
          EngineError.instanceNotFound).isInstanceNotFoundCond = false) ∧
    (∀ (a : UniversalAPI) (inp : RaiseEventWorkflowRequest) (wc : Workflow),
      inp.instanceId ≠ "" → inp.eventName ≠ "" →
      a.getWorkflowComponent inp.workflowComponent = .ok wc →
      wc.raiseEvent
          { instanceID := inp.instanceId, eventName := inp.eventName,
            eventData := inp.eventData } = some .instanceNotFound →
      (a.RaiseEventWorkflowBeta1 inp).2 =
          some (.ErrRaiseEventWorkflow inp.instanceId .instanceNotFound) ∧
        (WFError.ErrRaiseEventWorkflow inp.instanceId
          EngineError.instanceNotFound).isInstanceNotFoundCond = false) ∧
    (∀ (a : UniversalAPI) (inp : PauseWorkflowRequest) (wc : Workflow),
      inp.instanceId ≠ "" →
      a.getWorkflowComponent inp.workflowComponent = .ok wc →
      wc.pause { instanceID := inp.instanceId } = some .instanceNotFound →
      (a.PauseWorkflowBeta1 inp).2 =
          some (.ErrPauseWorkflow inp.instanceId .instanceNotFound) ∧
        (WFError.ErrPauseWorkflow inp.instanceId
          EngineError.instanceNotFound).isInstanceNotFoundCond = false) ∧
    (∀ (a : UniversalAPI) (inp : ResumeWorkflowRequest) (wc : Workflow),
      inp.instanceId ≠ "" →
      a.getWorkflowComponent inp.workflowComponent = .ok wc →
      wc.resume { instanceID := inp.instanceId } = some .instanceNotFound →
      (a.ResumeWorkflowBeta1 inp).2 =
          some (.ErrResumeWorkflow inp.instanceId .instanceNotFound) ∧
        (WFError.ErrResumeWorkflow inp.instanceId
          EngineError.instanceNotFound).isInstanceNotFoundCond = false) := by
  refine ⟨?_, ?_, ?_, ?_, ?_, ?_, ?_⟩
  · intro a inp wc h1 h2 h3
    simp [UniversalAPI.GetWorkflowBeta1, validateInstanceID, h1, h2, h3,
      EngineError.isInstanceNotFound]
  · intro a inp wc h1 h2 h3
    simp [UniversalAPI.TerminateWorkflowBeta1, validateInstanceID, h1, h2, h3,
      EngineError.isInstanceNotFound]
  · intro a inp wc h1 h2 h3
    simp [UniversalAPI.PurgeWorkflowBeta1, validateInstanceID, h1, h2, h3,
      EngineError.isInstanceNotFound]
  · intro a inp wc h1 h2 h3 h4
    exact ⟨by simp [UniversalAPI.StartWorkflowBeta1, h1, h2, h3, h4], rfl⟩
  · intro a inp wc h1 h2 h3 h4
    exact ⟨by simp [UniversalAPI.RaiseEventWorkflowBeta1, validateInstanceID,
      h1, h2, h3, h4], rfl⟩
  · intro a inp wc h1 h2 h3
    exact ⟨by simp [UniversalAPI.PauseWorkflowBeta1, validateInstanceID, h1, h2, h3], rfl⟩
  · intro a inp wc h1 h2 h3
    exact ⟨by simp [UniversalAPI.ResumeWorkflowBeta1, validateInstanceID, h1, h2, h3], rfl⟩

/-- C4 (witness): all seven operations against a component whose methods all
fail with the not-found sentinel. -/
theorem C4_witness :
    ((singletonAPI "c" (constComponent .instanceNotFound)).GetWorkflowBeta1
        { instanceId := "id1", workflowComponent := "c" }).2 =
      some (.ErrWorkflowInstanceNotFound "id1" .instanceNotFound) ∧
    ((singletonAPI "c" (constComponent .instanceNotFound)).TerminateWorkflowBeta1
        { instanceId := "id1", workflowComponent := "c" }).2 =
      some (.ErrWorkflowInstanceNotFound "id1" .instanceNotFound) ∧
    ((singletonAPI "c" (constComponent .instanceNotFound)).PurgeWorkflowBeta1
        { instanceId := "id1", workflowComponent := "c" }).2 =
      some (.ErrWorkflowInstanceNotFound "id1" .instanceNotFound) ∧
    (((singletonAPI "c" (constComponent .instanceNotFound)).StartWorkflowBeta1
        { instanceId := "id1", workflowComponent := "c", workflowName := "order",
          input := [], options := [] }).2 =
        some (.ErrStartWorkflow "order" .instanceNotFound) ∧
      (WFError.ErrStartWorkflow "order"
        EngineError.instanceNotFound).isInstanceNotFoundCond = false) ∧
    (((singletonAPI "c" (constComponent .instanceNotFound)).RaiseEventWorkflowBeta1
        { instanceId := "id1", workflowComponent := "c", eventName := "ev",
          eventData := [] }).2 =
        some (.ErrRaiseEventWorkflow "id1" .instanceNotFound) ∧
      (WFError.ErrRaiseEventWorkflow "id1"
        EngineError.instanceNotFound).isInstanceNotFoundCond = false) ∧
    (((singletonAPI "c" (constComponent .instanceNotFound)).PauseWorkflowBeta1
        { instanceId := "id1", workflowComponent := "c" }).2 =
        some (.ErrPauseWorkflow "id1" .instanceNotFound) ∧
      (WFError.ErrPauseWorkflow "id1"
        EngineError.instanceNotFound).isInstanceNotFoundCond = false) ∧
    (((singletonAPI "c" (constComponent .instanceNotFound)).ResumeWorkflowBeta1
        { instanceId := "id1", workflowComponent := "c" }).2 =
        some (.ErrResumeWorkflow "id1" .instanceNotFound) ∧
      (WFError.ErrResumeWorkflow "id1"
        EngineError.instanceNotFound).isInstanceNotFoundCond = false) :=
  ⟨C4_not_found_capability.1 _ _ (constComponent .instanceNotFound) (by decide) rfl rfl,
   C4_not_found_capability.2.1 _ _ (constComponent .instanceNotFound) (by decide) rfl rfl,
   C4_not_found_capability.2.2.1 _ _ (constComponent .instanceNotFound) (by decide) rfl rfl,
   C4_not_found_capability.2.2.2.1 _ _ (constComponent .instanceNotFound)
     (by decide) (by decide) rfl rfl,
   C4_not_found_capability.2.2.2.2.1 _ _ (constComponent .instanceNotFound)
     (by decide) (by decide) rfl rfl,
   C4_not_found_capability.2.2.2.2.2.1 _ _ (constComponent .instanceNotFound)
     (by decide) rfl rfl,
   C4_not_found_capability.2.2.2.2.2.2 _ _ (constComponent .instanceNotFound)
     (by decide) rfl rfl⟩


/-- A fixed workflow state used to exercise the dispatchers' success paths. -/
def demoState : WorkflowState :=
  { instanceID := "id1", workflowName := "order", createdAt := 1,
    lastUpdatedAt := 2, runtimeStatus := "RUNNING", properties := [] }

/-- C9: failure paths and only failure paths carry an error, and every error
comes with the zero-value payload.  For each operation, the returned error
is `none` exactly when id validation, the required-field check, component
resolution and the engine call all succeed — so a failure at any of those
steps yields a non-empty error (no error is swallowed) — and whenever an
error is present, Get and Start return their zero-value response while the
five acknowledgement operations return the empty payload on every path, so
no partially-filled response ever accompanies an error. -/
theorem C9_failure_paths :
    (∀ (a : UniversalAPI) (inp : GetWorkflowRequest),
      ((a.GetWorkflowBeta1 inp).2.isSome = true →
        (a.GetWorkflowBeta1 inp).1 = GetWorkflowResponse.zero) ∧
      ((a.GetWorkflowBeta1 inp).2 = none ↔
        validateInstanceID inp.instanceId false = none ∧
        ∃ wc, a.getWorkflowComponent inp.workflowComponent = .ok wc ∧
          ∃ r, wc.get { instanceID := inp.instanceId } = .ok r)) ∧
    (∀ (a : UniversalAPI) (inp : StartWorkflowRequest),
      ((a.StartWorkflowBeta1 inp).2.isSome = true →
        (a.StartWorkflowBeta1 inp).1 = StartWorkflowResponse.zero) ∧
      ((a.StartWorkflowBeta1 inp).2 = none ↔
        validateInstanceID inp.instanceId true = none ∧ inp.workflowName ≠ "" ∧
        ∃ wc, a.getWorkflowComponent inp.workflowComponent = .ok wc ∧
          ∃ r, wc.start
              { instanceID := inp.instanceId, options := inp.options,
                workflowName := inp.workflowName, workflowInput := inp.input } = .ok r)) ∧
    (∀ (a : UniversalAPI) (inp : TerminateWorkflowRequest),
      (a.TerminateWorkflowBeta1 inp).1 = {} ∧
      ((a.TerminateWorkflowBeta1 inp).2 = none ↔
        validateInstanceID inp.instanceId false = none ∧
        ∃ wc, a.getWorkflowComponent inp.workflowComponent = .ok wc ∧
          wc.terminate { instanceID := inp.instanceId } = none)) ∧
    (∀ (a : UniversalAPI) (inp : RaiseEventWorkflowRequest),
      (a.RaiseEventWorkflowBeta1 inp).1 = {} ∧
      ((a.RaiseEventWorkflowBeta1 inp).2 = none ↔
        validateInstanceID inp.instanceId false = none ∧ inp.eventName ≠ "" ∧
        ∃ wc, a.getWorkflowComponent inp.workflowComponent = .ok wc ∧
          wc.raiseEvent
            { instanceID := inp.instanceId, eventName := inp.eventName,
              eventData := inp.eventData } = none)) ∧
    (∀ (a : UniversalAPI) (inp : PauseWorkflowRequest),
      (a.PauseWorkflowBeta1 inp).1 = {} ∧
      ((a.PauseWorkflowBeta1 inp).2 = none ↔
        validateInstanceID inp.instanceId false = none ∧
        ∃ wc, a.getWorkflowComponent inp.workflowComponent = .ok wc ∧
          wc.pause { instanceID := inp.instanceId } = none)) ∧
    (∀ (a : UniversalAPI) (inp : ResumeWorkflowRequest),
      (a.ResumeWorkflowBeta1 inp).1 = {} ∧
      ((a.ResumeWorkflowBeta1 inp).2 = none ↔
        validateInstanceID inp.instanceId false = none ∧
        ∃ wc, a.getWorkflowComponent inp.workflowComponent = .ok wc ∧
          wc.resume { instanceID := inp.instanceId } = none)) ∧
    (∀ (a : UniversalAPI) (inp : PurgeWorkflowRequest),
      (a.PurgeWorkflowBeta1 inp).1 = {} ∧
      ((a.PurgeWorkflowBeta1 inp).2 = none ↔
        validateInstanceID inp.instanceId false = none ∧
        ∃ wc, a.getWorkflowComponent inp.workflowComponent = .ok wc ∧
          wc.purge { instanceID := inp.instanceId } = none)) := by
  refine ⟨?_, ?_, ?_, ?_, ?_, ?_, ?_⟩
  · intro a inp
    refine ⟨?_, ?_⟩
    · intro h
      unfold UniversalAPI.GetWorkflowBeta1 at h ⊢
      cases hv : validateInstanceID inp.instanceId false with
      | some e => simp [hv]
      | none =>
        cases hg : a.getWorkflowComponent inp.workflowComponent with
        | error e => simp [hv, hg]
        | ok wc =>
          cases he : wc.get { instanceID := inp.instanceId } with
          | error e => cases e <;> simp [hv, hg, he, EngineError.isInstanceNotFound]
          | ok r => simp [hv, hg, he] at h
    · cases hv : validateInstanceID inp.instanceId false with
      | some e => simp [UniversalAPI.GetWorkflowBeta1, hv]
      | none =>
        cases hg : a.getWorkflowComponent inp.workflowComponent with
        | error e => simp [UniversalAPI.GetWorkflowBeta1, hv, hg]
        | ok wc =>
          cases he : wc.get { instanceID := inp.instanceId } with
          | error e =>
            cases e <;>
              simp [UniversalAPI.GetWorkflowBeta1, hv, hg, he, EngineError.isInstanceNotFound]
          | ok r => simp [UniversalAPI.GetWorkflowBeta1, hv, hg, he]
  · intro a inp
    refine ⟨?_, ?_⟩
    · intro h
      unfold UniversalAPI.StartWorkflowBeta1 at h ⊢
      cases hv : validateInstanceID inp.instanceId true with
      | some e => simp [hv]
      | none =>
        by_cases hn : inp.workflowName = ""
        · simp [hv, hn]
        · cases hg : a.getWorkflowComponent inp.workflowComponent with
          | error e => simp [hv, hn, hg]
          | ok wc =>
            cases he : wc.start
                { instanceID := inp.instanceId, options := inp.options,
                  workflowName := inp.workflowName, workflowInput := inp.input } with
            | error e => simp [hv, hn, hg, he]
            | ok r => simp [hv, hn, hg, he] at h
    · cases hv : validateInstanceID inp.instanceId true with
      | some e => simp [UniversalAPI.StartWorkflowBeta1, hv]
      | none =>
        by_cases hn : inp.workflowName = ""
        · simp [UniversalAPI.StartWorkflowBeta1, hv, hn]
        · cases hg : a.getWorkflowComponent inp.workflowComponent with
          | error e => simp [UniversalAPI.StartWorkflowBeta1, hv, hn, hg]
          | ok wc =>
            cases he : wc.start
                { instanceID := inp.instanceId, options := inp.options,
                  workflowName := inp.workflowName, workflowInput := inp.input } with
            | error e => simp [UniversalAPI.StartWorkflowBeta1, hv, hn, hg, he]
            | ok r => simp [UniversalAPI.StartWorkflowBeta1, hv, hn, hg, he]
  · intro a inp
    refine ⟨rfl, ?_⟩
    cases hv : validateInstanceID inp.instanceId false with
    | some e => simp [UniversalAPI.TerminateWorkflowBeta1, hv]
    | none =>
      cases hg : a.getWorkflowComponent inp.workflowComponent with
      | error e => simp [UniversalAPI.TerminateWorkflowBeta1, hv, hg]
      | ok wc =>
        cases he : wc.terminate { instanceID := inp.instanceId } with
        | some e =>
          cases e <;>
            simp [UniversalAPI.TerminateWorkflowBeta1, hv, hg, he,
              EngineError.isInstanceNotFound]
        | none => simp [UniversalAPI.TerminateWorkflowBeta1, hv, hg, he]
  · intro a inp
    refine ⟨rfl, ?_⟩
    cases hv : validateInstanceID inp.instanceId false with
    | some e => simp [UniversalAPI.RaiseEventWorkflowBeta1, hv]
    | none =>
      by_cases hn : inp.eventName = ""
      · simp [UniversalAPI.RaiseEventWorkflowBeta1, hv, hn]
      · cases hg : a.getWorkflowComponent inp.workflowComponent with
        | error e => simp [UniversalAPI.RaiseEventWorkflowBeta1, hv, hn, hg]
        | ok wc =>
          cases he : wc.raiseEvent
              { instanceID := inp.instanceId, eventName := inp.eventName,
                eventData := inp.eventData } with
          | some e => simp [UniversalAPI.RaiseEventWorkflowBeta1, hv, hn, hg, he]
          | none => simp [UniversalAPI.RaiseEventWorkflowBeta1, hv, hn, hg, he]
  · intro a inp
    refine ⟨rfl, ?_⟩
    cases hv : validateInstanceID inp.instanceId false with
    | some e => simp [UniversalAPI.PauseWorkflowBeta1, hv]
    | none =>
      cases hg : a.getWorkflowComponent inp.workflowComponent with
      | error e => simp [UniversalAPI.PauseWorkflowBeta1, hv, hg]
      | ok wc =>
        cases he : wc.pause { instanceID := inp.instanceId } with
        | some e => simp [UniversalAPI.PauseWorkflowBeta1, hv, hg, he]
        | none => simp [UniversalAPI.PauseWorkflowBeta1, hv, hg, he]
  · intro a inp
    refine ⟨rfl, ?_⟩
    cases hv : validateInstanceID inp.instanceId false with
    | some e => simp [UniversalAPI.ResumeWorkflowBeta1, hv]
    | none =>
      cases hg : a.getWorkflowComponent inp.workflowComponent with
      | error e => simp [UniversalAPI.ResumeWorkflowBeta1, hv, hg]
      | ok wc =>
        cases he : wc.resume { instanceID := inp.instanceId } with
        | some e => simp [UniversalAPI.ResumeWorkflowBeta1, hv, hg, he]
        | none => simp [UniversalAPI.ResumeWorkflowBeta1, hv, hg, he]
  · intro a inp
    refine ⟨rfl, ?_⟩
    cases hv : validateInstanceID inp.instanceId false with
    | some e => simp [UniversalAPI.PurgeWorkflowBeta1, hv]
    | none =>
      cases hg : a.getWorkflowComponent inp.workflowComponent with
      | error e => simp [UniversalAPI.PurgeWorkflowBeta1, hv, hg]
      | ok wc =>
        cases he : wc.purge { instanceID := inp.instanceId } with
        | some e =>
          cases e <;>
            simp [UniversalAPI.PurgeWorkflowBeta1, hv, hg, he,
              EngineError.isInstanceNotFound]
        | none => simp [UniversalAPI.PurgeWorkflowBeta1, hv, hg, he]

/-- C9 (witness): failing Get and Start calls return the zero payloads with
an error; an engine-failing Get carries a non-empty error (nothing is
swallowed); all-success Get and Terminate calls carry no error. -/
theorem C9_witness :
    ((singletonAPI "c" (constComponent (.other 3))).GetWorkflowBeta1
        { instanceId := "id1", workflowComponent := "c" }).1 = GetWorkflowResponse.zero ∧
    ((singletonAPI "c" (constComponent (.other 3))).StartWorkflowBeta1
        { instanceId := "id1", workflowComponent := "c", workflowName := "order",
          input := [], options := [] }).1 = StartWorkflowResponse.zero ∧
    ((singletonAPI "c" (constComponent (.other 3))).GetWorkflowBeta1
        { instanceId := "id1", workflowComponent := "c" }).2 ≠ none ∧
    ((singletonAPI "c" (okComponent demoState)).GetWorkflowBeta1
        { instanceId := "id1", workflowComponent := "c" }).2 = none ∧
    ((singletonAPI "c" (okComponent demoState)).TerminateWorkflowBeta1
        { instanceId := "id1", workflowComponent := "c" }).2 = none :=
  ⟨(C9_failure_paths.1 (singletonAPI "c" (constComponent (.other 3)))
      { instanceId := "id1", workflowComponent := "c" }).1 (by decide),
   (C9_failure_paths.2.1 (singletonAPI "c" (constComponent (.other 3)))
      { instanceId := "id1", workflowComponent := "c", workflowName := "order",
        input := [], options := [] }).1 (by decide),
   fun h => by
     obtain ⟨hv, wc, hg, r, he⟩ :=
       (C9_failure_paths.1 (singletonAPI "c" (constComponent (.other 3)))
         { instanceId := "id1", workflowComponent := "c" }).2.mp h
     have hwc : (Except.ok (constComponent (.other 3)) : Except WFError Workflow) =
         Except.ok wc := hg
     injection hwc with hwc2
     subst hwc2
     simp [constComponent] at he,
   (C9_failure_paths.1 (singletonAPI "c" (okComponent demoState))
      { instanceId := "id1", workflowComponent := "c" }).2.mpr
     ⟨by decide, okComponent demoState, rfl, { workflow := demoState }, rfl⟩,
   (C9_failure_paths.2.2.1 (singletonAPI "c" (okComponent demoState))
      { instanceId := "id1", workflowComponent := "c" }).2.mpr
     ⟨by decide, okComponent demoState, rfl, rfl⟩⟩
